import Mathlib

/-!
Shallow embedding of the passwordless-authentication subsystem of the
books repository (backend route handlers in
`src/backend/src/routes/auth.ts`, the authentication middleware in
`src/backend/src/middleware/auth.ts`, and the schema in
`src/backend/add-recovery-codes.sql` / `migrations/001_multi_user.sql`).

Modelling conventions:
* The PostgreSQL tables become lists of rows; `SELECT ... WHERE` becomes
  `List.find?` / `List.filter`, and the `UNIQUE` column constraints become
  explicit checks performed by the insert steps (a violated constraint
  makes the surrounding handler fail exactly as the thrown SQL error does
  in the source: the catch-all branch returns a 500 response and the
  transaction's writes are discarded).
* The in-memory `challenges` JavaScript `Map` becomes an association list
  with `mapGet` / `mapSet` / `mapDelete` mirroring `get` / `set` / `delete`.
* Timestamps are `Nat` milliseconds; `new Date(expires_at) < new Date()`
  becomes `expiresAt < now`.
* The WebAuthn ceremony verifier (`verifyRegistrationResponse`,
  `verifyAuthenticationResponse`), the bcrypt hash/compare pair and the
  JWT MAC are trusted external capabilities in the source; they are
  parameters of the context `Ctx` (the relying-party origin and id that
  the source passes to the verifier are process constants and are
  absorbed into the verifier functions).
* Randomly generated values (challenges, row ids, recovery codes, tokens)
  are explicit arguments of the handlers.
* A request field that the source rejects when JavaScript-falsy is
  modelled at type `String` with the emptiness check (`""` is the only
  falsy string); object-typed request fields are modelled as always
  present, so the "required" 400 branch is modelled for string fields.
* Each handler returns the updated server state together with the
  response, an `Except` of (HTTP status, error message) or the success
  payload.
-/

namespace Books

/-- Row of the `users` table (`username TEXT NOT NULL UNIQUE`,
`is_initial_user BOOLEAN`). -/
structure User where
  id : Nat
  username : String
  isInitialUser : Bool
deriving Repr, DecidableEq

/-- Row of the `passkey_credentials` table. -/
structure PasskeyCredential where
  id : Nat
  userId : Nat
  credentialId : String
  publicKey : String
  counter : Nat
  deviceName : Option String
  transports : List String
deriving Repr, DecidableEq

/-- Row of the `recovery_codes` table; `code` holds the bcrypt hash. -/
structure RecoveryCode where
  id : Nat
  userId : Nat
  code : String
  used : Bool
deriving Repr, DecidableEq

/-- Row of the `invitation_tokens` table. -/
structure InvitationToken where
  id : Nat
  createdBy : Nat
  token : String
  expiresAt : Nat
  used : Bool
  usedBy : Option Nat
deriving Repr, DecidableEq

/-- Row of the `setup_tokens` table. -/
structure SetupToken where
  id : Nat
  userId : Nat
  token : String
  expiresAt : Nat
  used : Bool
deriving Repr, DecidableEq

/-- The relational state of the Credential Store. -/
structure DB where
  users : List User
  credentials : List PasskeyCredential
  recoveryCodes : List RecoveryCode
  invitations : List InvitationToken
  setupTokens : List SetupToken
deriving Repr, DecidableEq

/-- JWT claims as signed by the source (`{ userId, username }` plus the
expiry derived from `expiresIn: '30d'`). -/
structure TokenPayload where
  userId : Nat
  username : String
  exp : Nat
deriving Repr, DecidableEq

/-- A signed session token: payload plus its MAC. -/
structure SignedToken where
  payload : TokenPayload
  mac : String
deriving Repr, DecidableEq

/-- The credential info extracted by `verifyRegistrationResponse`
(`verification.registrationInfo.credential`). -/
structure RegInfo where
  credentialId : String
  publicKey : String
  counter : Nat
deriving Repr, DecidableEq

/-- A registration request credential (`RegistrationResponseJSON`): the
opaque attestation payload consumed by the ceremony verifier plus the
`response.transports` list. -/
structure RegCred where
  blob : String
  transports : List String
deriving Repr, DecidableEq

/-- An authentication request credential
(`AuthenticationResponseJSON`): its `rawId` plus the opaque assertion
payload consumed by the ceremony verifier. -/
structure AuthCred where
  rawId : String
  blob : String
deriving Repr, DecidableEq

/-- Ambient request context: the current time, the JWT secret and MAC,
the bcrypt capabilities and the WebAuthn ceremony verifier capabilities
(which absorb the process-constant rpOrigin / rpID). -/
structure Ctx where
  now : Nat
  secret : String
  macF : String → TokenPayload → String
  bcryptHash : String → String
  bcryptCheck : String → String → Bool
  verifyReg : String → String → Option RegInfo
  verifyAuth : AuthCred → String → PasskeyCredential → Option Nat

/-- The in-memory challenge `Map\x3cstring, string\x3e` as an association
list. -/
abbrev ChallengeMap := List (String × String)

/-- An error response: HTTP status code and error message. -/
abbrev Err := Nat × String

/-- Responses are compared for equality in several theorems; `Except`
carries no derived decidable equality, so provide it. -/
instance {e a : Type} [DecidableEq e] [DecidableEq a] :
    DecidableEq (Except e a) := fun x y =>
  match x, y with
  | .error e1, .error e2 => decidable_of_iff (e1 = e2) (by simp)
  | .ok v1, .ok v2 => decidable_of_iff (v1 = v2) (by simp)
  | .error _, .ok _ => isFalse (by simp)
  | .ok _, .error _ => isFalse (by simp)

/-- The mutable server state: database plus challenge map. -/
structure ServerState where
  db : DB
  challenges : ChallengeMap
deriving Repr, DecidableEq

/-- `Map.get`. -/
def mapGet (m : ChallengeMap) (k : String) : Option String :=
  (m.find? (fun p => p.1 = k)).map (fun p => p.2)

/-- `Map.delete`. -/
def mapDelete (m : ChallengeMap) (k : String) : ChallengeMap :=
  m.filter (fun p => ¬ p.1 = k)

/-- `Map.set` (the entry under `k`, if any, is replaced). -/
def mapSet (m : ChallengeMap) (k v : String) : ChallengeMap :=
  mapDelete m k ++ [(k, v)]

/-- Number of milliseconds in the 30-day JWT lifetime
(`expiresIn: '30d'`). -/
def thirtyDaysMs : Nat := 30 * 24 * 60 * 60 * 1000

/-- Number of milliseconds in the 30-minute setup-token lifetime
(`30 * 60 * 1000` in the source). -/
def thirtyMinutesMs : Nat := 30 * 60 * 1000

/-- Number of milliseconds in the 7-day invitation-token lifetime
(`7 * 24 * 60 * 60 * 1000` in the source). -/
def sevenDaysMs : Nat := 7 * 24 * 60 * 60 * 1000

/-- `jwt.sign({ userId, username }, jwtSecret, { expiresIn: '30d' })`. -/
def signJwt (ctx : Ctx) (userId : Nat) (username : String) : SignedToken :=
  let p : TokenPayload := ⟨userId, username, ctx.now + thirtyDaysMs⟩
  ⟨p, ctx.macF ctx.secret p⟩

/-- `jwt.verify(token, jwtSecret)`: the MAC must match and the token must
not be expired. -/
def jwtVerify (ctx : Ctx) (t : SignedToken) : Option TokenPayload :=
  if t.mac = ctx.macF ctx.secret t.payload ∧ ctx.now < t.payload.exp then
    some t.payload
  else none

/-- `SELECT ... FROM users WHERE username = $1`. -/
def findUserByName (db : DB) (uname : String) : Option User :=
  db.users.find? (fun u => u.username = uname)

/-- `SELECT ... FROM users WHERE id = $1`. -/
def findUserById (db : DB) (uid : Nat) : Option User :=
  db.users.find? (fun u => u.id = uid)

/-- `SELECT ... FROM passkey_credentials WHERE user_id = $1 AND
credential_id = $2`. -/
def findCredential (db : DB) (uid : Nat) (rawId : String) :
    Option PasskeyCredential :=
  db.credentials.find? (fun c => c.userId = uid ∧ c.credentialId = rawId)

/-- Whether a user row with the given username exists (the check behind
both the options-step `SELECT id FROM users WHERE username = $1` and the
`username TEXT NOT NULL UNIQUE` constraint hit by the verify-step
INSERT). -/
def usernameTaken (db : DB) (uname : String) : Bool :=
  db.users.any (fun u => u.username = uname)

/-- Whether a credential row with the given credential id exists (the
`credential_id TEXT NOT NULL UNIQUE` constraint). -/
def credentialIdTaken (db : DB) (cid : String) : Bool :=
  db.credentials.any (fun c => c.credentialId = cid)

/-- `SELECT ... FROM invitation_tokens WHERE token = $1`. -/
def findInvitation (db : DB) (token : String) : Option InvitationToken :=
  db.invitations.find? (fun t => t.token = token)

/-- Result of the `validateInvitationToken` helper in the source. -/
inductive InvValidation where
  | valid (id : Nat)
  | invalid (error : String)
deriving Repr, DecidableEq

/-- The `validateInvitationToken` helper: look the token up, then reject
used tokens, then reject expired tokens. -/
def validateInvitationToken (db : DB) (now : Nat) (token : String) :
    InvValidation :=
  match findInvitation db token with
  | none => .invalid "Invalid invitation token"
  | some t =>
    if t.used then .invalid "This invitation has already been used"
    else if t.expiresAt < now then .invalid "This invitation has expired"
    else .valid t.id

/-- Challenge key used by the registration ceremony:
`invitationToken ? username + ":" + invitationToken : username`. -/
def regChallengeKey (username : String) (invitationToken : Option String) :
    String :=
  match invitationToken with
  | some t => username ++ ":" ++ t
  | none => username

/-- The invitation precondition shared by the options and verify steps
of the registration ceremony: when at least one user exists an
invitation token is mandatory and must validate; with no users yet
(first-user bootstrap) the invitation is skipped. Returns the
invitation row id to mark used (none on the bootstrap path). -/
def registerInvCheck (db : DB) (now : Nat) (inv : Option String) :
    Except Err (Option Nat) :=
  if db.users.length = 0 then .ok none
  else
    match inv with
    | none => .error (403, "Registration requires an invitation")
    | some tok =>
      match validateInvitationToken db now tok with
      | .invalid e => .error (403, e)
      | .valid i => .ok (some i)

/-- POST /register/options. The returned payload is the stored
challenge (standing in for the full WebAuthn options object). -/
def registerOptions (ctx : Ctx) (s : ServerState) (username : String)
    (invitationToken : Option String) (freshChallenge : String) :
    ServerState × Except Err String :=
  if username = "" then
    (s, .error (400, "Username is required"))
  else
    match registerInvCheck s.db ctx.now invitationToken with
    | .error e => (s, .error e)
    | .ok _ =>
      if usernameTaken s.db username then
        (s, .error (400, "Username already exists"))
      else
        let key := regChallengeKey username invitationToken
        ({ s with challenges := mapSet s.challenges key freshChallenge },
         .ok freshChallenge)

/-- Mark the invitation row with the given id used by the given user
(`UPDATE invitation_tokens SET used = TRUE, used_by = $1 WHERE id = $2`). -/
def markInvitationUsed (invs : List InvitationToken) (invId : Option Nat)
    (uid : Nat) : List InvitationToken :=
  match invId with
  | none => invs
  | some i =>
    invs.map (fun t =>
      if t.id = i then { t with used := true, usedBy := some uid } else t)

/-- The hashed recovery-code rows built from the 10 plaintext codes and
their fresh row ids. -/
def mkCodeRows (ctx : Ctx) (uid : Nat) (codes : List String)
    (ids : List Nat) : List RecoveryCode :=
  (codes.zip ids).map (fun p => ⟨p.2, uid, ctx.bcryptHash p.1, false⟩)

/-- Sequentially insert recovery-code rows, each insert enforcing the
`code TEXT NOT NULL UNIQUE` constraint against the rows already present. -/
def insertCodesUnique (existing : List RecoveryCode)
    (rows : List RecoveryCode) : Option (List RecoveryCode) :=
  match rows with
  | [] => some existing
  | r :: rest =>
    if existing.any (fun c => c.code = r.code) then none
    else insertCodesUnique (existing ++ [r]) rest

/-- Success payload of POST /register/verify. -/
structure RegisterOk where
  token : SignedToken
  userId : Nat
  username : String
  recoveryCodes : List String
deriving Repr, DecidableEq

/-- The registration commit transaction: insert the user (the
`username` unique constraint), insert the credential (the
`credential_id` unique constraint), mark the invitation used if
applicable, insert the 10 hashed recovery codes (the `code` unique
constraint); `none` models the rolled-back transaction whose thrown
error reaches the catch-all 500 branch. -/
def registerTx (ctx : Ctx) (db : DB) (username : String) (isFirst : Bool)
    (transports : List String) (info : RegInfo) (invitationId : Option Nat)
    (newUserId newCredId : Nat) (newCodes : List String)
    (newCodeIds : List Nat) : Option DB :=
  if usernameTaken db username then none
  else if credentialIdTaken db info.credentialId then none
  else
    match insertCodesUnique db.recoveryCodes
        (mkCodeRows ctx newUserId newCodes newCodeIds) with
    | none => none
    | some codes' =>
      some { db with
        users := db.users ++ [⟨newUserId, username, isFirst⟩]
        credentials := db.credentials ++
          [⟨newCredId, newUserId, info.credentialId, info.publicKey,
            info.counter, none, transports⟩]
        invitations := markInvitationUsed db.invitations invitationId newUserId
        recoveryCodes := codes' }

/-- POST /register/verify: body check, invitation precondition,
challenge lookup, ceremony verification, commit transaction, challenge
deletion and token issuance. Fresh row ids and the 10 random plaintext
codes are explicit arguments. -/
def registerVerify (ctx : Ctx) (s : ServerState) (username : String)
    (credential : RegCred) (invitationToken : Option String)
    (newUserId newCredId : Nat) (newCodes : List String)
    (newCodeIds : List Nat) : ServerState × Except Err RegisterOk :=
  if username = "" then
    (s, .error (400, "Username and credential are required"))
  else
    match registerInvCheck s.db ctx.now invitationToken with
    | .error e => (s, .error e)
    | .ok invitationId =>
      let key := regChallengeKey username invitationToken
      match mapGet s.challenges key with
      | none => (s, .error (400, "No registration in progress"))
      | some expectedChallenge =>
        match ctx.verifyReg credential.blob expectedChallenge with
        | none => (s, .error (400, "Verification failed"))
        | some info =>
          match registerTx ctx s.db username (s.db.users.length = 0)
              credential.transports info invitationId newUserId newCredId
              newCodes newCodeIds with
          | none => (s, .error (500, "Failed to verify registration"))
          | some db' =>
            ({ db := db', challenges := mapDelete s.challenges key },
             .ok ⟨signJwt ctx newUserId username, newUserId, username,
                  newCodes⟩)

/-- POST /login/options: stores the challenge under the bare username
for existing and non-existing users alike and returns it (standing in
for the full options object with its allow-list). -/
def loginOptions (s : ServerState) (username : String)
    (freshChallenge : String) : ServerState × Except Err String :=
  if username = "" then
    (s, .error (400, "Username is required"))
  else
    ({ s with challenges := mapSet s.challenges username freshChallenge },
     .ok freshChallenge)

/-- Success payload of the login endpoints. -/
structure LoginOk where
  token : SignedToken
  userId : Nat
  username : String
deriving Repr, DecidableEq

/-- POST /login/verify: challenge lookup, then user lookup and credential
lookup (both answering the one generic error), then ceremony
verification, counter update, challenge deletion, token issuance. -/
def loginVerify (ctx : Ctx) (s : ServerState) (username : String)
    (cred : AuthCred) : ServerState × Except Err LoginOk :=
  if username = "" then
    (s, .error (400, "Username and credential are required"))
  else
    match mapGet s.challenges username with
    | none => (s, .error (400, "No login in progress"))
    | some expectedChallenge =>
      match findUserByName s.db username with
      | none => (s, .error (400, "Authentication failed"))
      | some user =>
        match findCredential s.db user.id cred.rawId with
        | none => (s, .error (400, "Authentication failed"))
        | some dbCred =>
          match ctx.verifyAuth cred expectedChallenge dbCred with
          | none => (s, .error (400, "Verification failed"))
          | some newCounter =>
            let db' := { s.db with
              credentials := s.db.credentials.map (fun c =>
                if c.id = dbCred.id then { c with counter := newCounter }
                else c) }
            ({ db := db', challenges := mapDelete s.challenges username },
             .ok ⟨signJwt ctx user.id user.username, user.id, user.username⟩)

/-- Normalisation applied to a presented recovery code
(`recoveryCode.trim().toUpperCase()`), implemented over the character
list: whitespace stripped from both ends, then uppercased. -/
def normalizeCode (s : String) : String :=
  ⟨(((s.data.dropWhile Char.isWhitespace).reverse.dropWhile
      Char.isWhitespace).reverse).map Char.toUpper⟩

/-- The scan of the source's recovery loop: the user's unused code rows
(`SELECT ... WHERE user_id = $1 AND used = FALSE`) traversed in row
order, stopping at the first bcrypt match. -/
def findMatchingCode (ctx : Ctx) (db : DB) (uid : Nat) (input : String) :
    Option RecoveryCode :=
  (db.recoveryCodes.filter (fun r => r.userId = uid ∧ r.used = false)).find?
    (fun r => ctx.bcryptCheck input r.code)

/-- `UPDATE recovery_codes SET used = TRUE, used_at = NOW() WHERE
id = $1`. -/
def markCodeUsed (db : DB) (rid : Nat) : DB :=
  { db with recoveryCodes := db.recoveryCodes.map (fun r =>
      if r.id = rid then { r with used := true } else r) }

/-- POST /login/recovery: user lookup (generic error), scan of the
user's unused code rows in row order comparing via bcrypt, mark the
first match used, issue a token. -/
def loginRecovery (ctx : Ctx) (s : ServerState)
    (username recoveryCode : String) : ServerState × Except Err LoginOk :=
  if username = "" ∨ recoveryCode = "" then
    (s, .error (400, "Username and recovery code are required"))
  else
    match findUserByName s.db username with
    | none => (s, .error (400, "Invalid username or recovery code"))
    | some user =>
      match findMatchingCode ctx s.db user.id (normalizeCode recoveryCode) with
      | none => (s, .error (400, "Invalid username or recovery code"))
      | some row =>
        ({ s with db := markCodeUsed s.db row.id },
         .ok ⟨signJwt ctx user.id user.username, user.id, user.username⟩)

/-- Number of credentials owned by a user
(`SELECT COUNT(*) FROM passkey_credentials WHERE user_id = $1`). -/
def credCount (db : DB) (uid : Nat) : Nat :=
  (db.credentials.filter (fun c => c.userId = uid)).length

/-- DELETE /passkeys/:id (the `userId` argument is the one taken from
the authenticated session): refuse when the owner has at most one
credential, otherwise delete the row matching both the path id and the
owner, answering 404 when no row was deleted. -/
def deletePasskey (s : ServerState) (userId passkeyId : Nat) :
    ServerState × Except Err Unit :=
  if credCount s.db userId ≤ 1 then
    (s, .error (400, "Cannot delete your only passkey"))
  else
    let remaining := s.db.credentials.filter
      (fun c => ¬ (c.id = passkeyId ∧ c.userId = userId))
    if remaining.length = s.db.credentials.length then
      (s, .error (404, "Passkey not found"))
    else
      ({ s with db := { s.db with credentials := remaining } }, .ok ())

/-- POST /setup-token/generate (authenticated): insert a fresh token
expiring 30 minutes from now; the `token TEXT NOT NULL UNIQUE`
constraint is modelled as a check against the existing rows (a clash
reaches the catch-all 500 branch of the source). Returns the token and
its expiry. -/
def setupTokenGenerate (ctx : Ctx) (s : ServerState) (userId : Nat)
    (freshToken : String) (newId : Nat) :
    ServerState × Except Err (String × Nat) :=
  let expiresAt := ctx.now + thirtyMinutesMs
  if s.db.setupTokens.any (fun t => t.token = freshToken) then
    (s, .error (500, "Failed to generate setup token"))
  else
    ({ s with db := { s.db with setupTokens :=
        s.db.setupTokens ++ [⟨newId, userId, freshToken, expiresAt, false⟩] } },
     .ok (freshToken, expiresAt))

/-- The setup-token lookup joined with its owner
(`SELECT ... FROM setup_tokens st JOIN users u ON st.user_id = u.id
WHERE st.token = $1`). -/
def findSetupTokenJoined (db : DB) (token : String) :
    Option (SetupToken × User) :=
  (db.setupTokens.find? (fun t => t.token = token)).bind (fun st =>
    (findUserById db st.userId).map (fun u => (st, u)))

/-- POST /setup-token/register-options: validate the token, store the
challenge under `"setup-" + token`, return the challenge (standing in
for the full options object). -/
def setupRegisterOptions (ctx : Ctx) (s : ServerState) (token : String)
    (freshChallenge : String) : ServerState × Except Err String :=
  if token = "" then
    (s, .error (400, "Token is required"))
  else
    match findSetupTokenJoined s.db token with
    | none => (s, .error (404, "Invalid setup token"))
    | some (st, _) =>
      if st.used then
        (s, .error (400, "This setup token has already been used"))
      else if st.expiresAt < ctx.now then
        (s, .error (400, "This setup token has expired"))
      else
        ({ s with challenges :=
            mapSet s.challenges ("setup-" ++ token) freshChallenge },
         .ok freshChallenge)

/-- `UPDATE setup_tokens SET used = TRUE, used_at = NOW() WHERE
id = $1`. -/
def markSetupUsed (sts : List SetupToken) (sid : Nat) : List SetupToken :=
  sts.map (fun t => if t.id = sid then { t with used := true } else t)

/-- JavaScript `deviceName || null`: the empty string is falsy and is
stored as NULL. -/
def jsOrNull (deviceName : Option String) : Option String :=
  match deviceName with
  | some d => if d = "" then none else some d
  | none => none

/-- POST /setup-token/register-verify: validate the token, consume the
stored challenge on success, verify the ceremony, insert one credential
row for the token's owner (the setup-path INSERT carries no transports
column), mark the token used, issue a session token. The credential
insert enforces the unique `credential_id` constraint; a violation
reaches the catch-all 500 branch before the token is marked used (the
two writes are not wrapped in a transaction in the source). -/
def setupRegisterVerify (ctx : Ctx) (s : ServerState) (token : String)
    (credential : RegCred) (deviceName : Option String) (newCredId : Nat) :
    ServerState × Except Err LoginOk :=
  if token = "" then
    (s, .error (400, "Token and credential are required"))
  else
    match findSetupTokenJoined s.db token with
    | none => (s, .error (404, "Invalid setup token"))
    | some (st, u) =>
      if st.used then
        (s, .error (400, "This setup token has already been used"))
      else if st.expiresAt < ctx.now then
        (s, .error (400, "This setup token has expired"))
      else
        match mapGet s.challenges ("setup-" ++ token) with
        | none => (s, .error (400, "No registration in progress"))
        | some expectedChallenge =>
          match ctx.verifyReg credential.blob expectedChallenge with
          | none => (s, .error (400, "Verification failed"))
          | some info =>
            if credentialIdTaken s.db info.credentialId then
              (s, .error (500, "Failed to complete setup"))
            else
              let newCred : PasskeyCredential :=
                ⟨newCredId, st.userId, info.credentialId, info.publicKey,
                 info.counter, jsOrNull deviceName, []⟩
              let db' := { s.db with
                credentials := s.db.credentials ++ [newCred]
                setupTokens := markSetupUsed s.db.setupTokens st.id }
              ({ db := db',
                 challenges := mapDelete s.challenges ("setup-" ++ token) },
               .ok ⟨signJwt ctx st.userId u.username, st.userId, u.username⟩)

/-- POST /invitation/generate (authenticated): insert a fresh token
expiring 7 days from now (unique-token clash reaches the 500 branch). -/
def invitationGenerate (ctx : Ctx) (s : ServerState) (userId : Nat)
    (freshToken : String) (newId : Nat) :
    ServerState × Except Err (String × Nat) :=
  let expiresAt := ctx.now + sevenDaysMs
  if s.db.invitations.any (fun t => t.token = freshToken) then
    (s, .error (500, "Failed to generate invitation"))
  else
    ({ s with db := { s.db with invitations := s.db.invitations ++
        [⟨newId, userId, freshToken, expiresAt, false, none⟩] } },
     .ok (freshToken, expiresAt))

/-- POST /verify-token: verify the JWT, then additionally look the
claimed user up in the `users` table, answering 404 when the row no
longer exists. -/
def verifyTokenEndpoint (ctx : Ctx) (s : ServerState)
    (tok : Option SignedToken) : Except Err (Nat × String) :=
  match tok with
  | none => .error (400, "Token is required")
  | some t =>
    match jwtVerify ctx t with
    | none => .error (401, "Invalid or expired token")
    | some p =>
      match findUserById s.db p.userId with
      | none => .error (404, "User not found")
      | some u => .ok (u.id, u.username)

/-- The `Authorization` request header as seen by the middleware:
missing, present but not of the form `Bearer <token>`, or a bearer
token. -/
inductive AuthHeader where
  | missing
  | malformed
  | bearer (t : SignedToken)

/-- The `authenticate` middleware (`src/backend/src/middleware/auth.ts`):
header parsing followed by bare `jwt.verify` — its type shows it never
consults the database. -/
def authenticate (ctx : Ctx) (h : AuthHeader) : Except Err TokenPayload :=
  match h with
  | .missing => .error (401, "No authorization header")
  | .malformed =>
      .error (401, "Invalid authorization format. Expected \"Bearer <token>\"")
  | .bearer t =>
    match jwtVerify ctx t with
    | none => .error (401, "Invalid or expired token")
    | some p => .ok p

/-- The process environment variables read at module load. -/
structure Env where
  rpNameVar : Option String
  rpIdVar : Option String
  rpOriginVar : Option String
  jwtSecretVar : Option String
deriving Repr, DecidableEq

/-- JavaScript `process.env.X || default`: an unset or empty variable
falls back to the default. -/
def envOrDefault (v : Option String) (d : String) : String :=
  match v with
  | none => d
  | some s => if s = "" then d else s

/-- The process configuration resolved at startup. -/
structure RpConfig where
  rpName : String
  rpID : String
  rpOrigin : String
  jwtSecret : String
deriving Repr, DecidableEq

/-- Module-load configuration of `auth.ts`: `rpName`, `rpID` and
`rpOrigin` fall back to defaults via `||`; only a falsy `JWT_SECRET`
makes the process throw. -/
def startup (env : Env) : Except String RpConfig :=
  let rpName := envOrDefault env.rpNameVar "Books Tracker"
  let rpID := envOrDefault env.rpIdVar "localhost"
  let rpOrigin := envOrDefault env.rpOriginVar "http://localhost:5173"
  match env.jwtSecretVar with
  | none => .error "JWT_SECRET environment variable is required"
  | some sec =>
    if sec = "" then .error "JWT_SECRET environment variable is required"
    else .ok ⟨rpName, rpID, rpOrigin, sec⟩

/-- Concrete MAC capability used to instantiate witnesses. -/
def macW : String → TokenPayload → String :=
  fun sec p => sec ++ "|" ++ p.username ++ "|" ++ toString p.userId

/-- Concrete context used to instantiate witnesses: deterministic hash,
matching compare, and ceremony verifiers accepting payloads of the form
`"ok:" ++ challenge`. -/
def ctxW : Ctx where
  now := 1000
  secret := "s3cr3t"
  macF := macW
  bcryptHash := fun c => "h:" ++ c
  bcryptCheck := fun input stored => stored = "h:" ++ input
  verifyReg := fun blob ch =>
    if blob = "ok:" ++ ch then some ⟨"cred-" ++ ch, "pk", 5⟩ else none
  verifyAuth := fun cred ch db =>
    if cred.blob = "ok:" ++ ch then some (db.counter + 1) else none

/-- Ten distinct plaintext recovery codes used to instantiate
witnesses (standing for the ten random codes the source generates). -/
def codesW : List String :=
  ["A0", "A1", "A2", "A3", "A4", "A5", "A6", "A7", "A8", "A9"]

/-- Fresh recovery-code row ids used to instantiate witnesses. -/
def idsW : List Nat := [31, 32, 33, 34, 35, 36, 37, 38, 39, 40]

/-- Concrete store used by the recovery-code witness: one user holding
the ten hashed recovery codes generated alongside registration. -/
def sRecW : ServerState :=
  ⟨⟨[⟨1, "alice", true⟩], [],
    [⟨31, 1, "h:A0", false⟩, ⟨32, 1, "h:A1", false⟩, ⟨33, 1, "h:A2", false⟩,
     ⟨34, 1, "h:A3", false⟩, ⟨35, 1, "h:A4", false⟩, ⟨36, 1, "h:A5", false⟩,
     ⟨37, 1, "h:A6", false⟩, ⟨38, 1, "h:A7", false⟩, ⟨39, 1, "h:A8", false⟩,
     ⟨40, 1, "h:A9", false⟩], [], []⟩, []⟩

theorem mapGet_mapDelete_self (m : ChallengeMap) (k : String) :
    mapGet (mapDelete m k) k = none := by
  induction m with
  | nil => rfl
  | cons p t ih =>
    by_cases h : p.1 = k
    · simp [mapGet, mapDelete, List.filter_cons, h]
    · simp [mapGet, mapDelete, List.filter_cons, h, List.find?_cons]

theorem insertCodesUnique_eq_some (rows existing : List RecoveryCode)
    (hnd : (rows.map RecoveryCode.code).Nodup)
    (hdisj : ∀ r ∈ rows, ∀ c ∈ existing, c.code ≠ r.code) :
    insertCodesUnique existing rows = some (existing ++ rows) := by
  induction rows generalizing existing with
  | nil => simp [insertCodesUnique]
  | cons r rest ih =>
    have hnd' : (∀ x ∈ rest, ¬ x.code = r.code) ∧
        (rest.map RecoveryCode.code).Nodup := by
      simpa using hnd
    have hany : existing.any (fun c => c.code = r.code) = false := by
      rw [List.any_eq_false]
      intro c hc
      simpa using hdisj r (by simp) c hc
    rw [insertCodesUnique, hany]
    simp only [Bool.false_eq_true, if_false]
    have hrec := ih (existing ++ [r]) hnd'.2 ?_
    · rw [hrec]
      simp
    · intro r' hr' c hc
      rcases List.mem_append.mp hc with hce | hcr
      · exact hdisj r' (by simp [hr']) c hce
      · have hcr' : c = r := by simpa using hcr
        subst hcr'
        intro hEq
        exact hnd'.1 r' hr' hEq.symm

theorem mkCodeRows_map_code (ctx : Ctx) (uid : Nat) (codes : List String)
    (ids : List Nat) (hlen : codes.length = ids.length) :
    (mkCodeRows ctx uid codes ids).map RecoveryCode.code =
      codes.map ctx.bcryptHash := by
  simp only [mkCodeRows, List.map_map]
  have h1 : (RecoveryCode.code ∘ fun p : String × Nat =>
      (⟨p.2, uid, ctx.bcryptHash p.1, false⟩ : RecoveryCode)) =
      (ctx.bcryptHash ∘ Prod.fst) := rfl
  rw [h1, ← List.map_map, List.map_fst_zip _ _ (le_of_eq hlen)]

theorem mkCodeRows_mem (ctx : Ctx) (uid : Nat) (codes : List String)
    (ids : List Nat) (r : RecoveryCode)
    (hr : r ∈ mkCodeRows ctx uid codes ids) :
    ∃ cd ∈ codes, r.code = ctx.bcryptHash cd := by
  simp only [mkCodeRows, List.mem_map] at hr
  obtain ⟨⟨cd, i⟩, hp, rfl⟩ := hr
  exact ⟨cd, (List.of_mem_zip hp).1, rfl⟩

theorem find_markInvitationUsed (invs : List InvitationToken) (tok : String)
    (uid : Nat) (r : InvitationToken)
    (hfind : invs.find? (fun t => t.token = tok) = some r) :
    (markInvitationUsed invs (some r.id) uid).find? (fun t => t.token = tok) =
      some { r with used := true, usedBy := some uid } := by
  induction invs with
  | nil => simp at hfind
  | cons a t ih =>
    by_cases h : a.token = tok
    · rw [List.find?_cons_of_pos _ (by simp [h])] at hfind
      have har : a = r := by simpa using hfind
      subst har
      simp only [markInvitationUsed, List.map_cons, if_pos rfl]
      exact List.find?_cons_of_pos _ (by simp [h])
    · rw [List.find?_cons_of_neg _ (by simp [h])] at hfind
      have iht := ih hfind
      simp only [markInvitationUsed, List.map_cons] at iht ⊢
      rw [List.find?_cons_of_neg _ ?_]
      · exact iht
      · by_cases hid : a.id = r.id <;> simp [hid, h]

theorem find_markSetupUsed (sts : List SetupToken) (tok : String)
    (r : SetupToken) (hfind : sts.find? (fun t => t.token = tok) = some r) :
    (markSetupUsed sts r.id).find? (fun t => t.token = tok) =
      some { r with used := true } := by
  induction sts with
  | nil => simp at hfind
  | cons a t ih =>
    by_cases h : a.token = tok
    · rw [List.find?_cons_of_pos _ (by simp [h])] at hfind
      have har : a = r := by simpa using hfind
      subst har
      simp only [markSetupUsed, List.map_cons, if_pos rfl]
      exact List.find?_cons_of_pos _ (by simp [h])
    · rw [List.find?_cons_of_neg _ (by simp [h])] at hfind
      have iht := ih hfind
      simp only [markSetupUsed, List.map_cons] at iht ⊢
      rw [List.find?_cons_of_neg _ ?_]
      · exact iht
      · by_cases hid : a.id = r.id <;> simp [hid, h]

theorem registerTx_users (ctx : Ctx) (db : DB) (uname : String)
    (isF : Bool) (tr : List String) (info : RegInfo) (invId : Option Nat)
    (a b : Nat) (cs : List String) (ci : List Nat) (db' : DB)
    (h : registerTx ctx db uname isF tr info invId a b cs ci = some db') :
    db'.users = db.users ++ [⟨a, uname, isF⟩] := by
  unfold registerTx at h
  split at h
  · exact absurd h (by simp)
  · split at h
    · exact absurd h (by simp)
    · split at h
      · exact absurd h (by simp)
      · injection h with h'
        rw [← h']

theorem remove_own_credential (l : List PasskeyCredential) (pid uid : Nat)
    (hnodup : (l.map PasskeyCredential.id).Nodup) (c : PasskeyCredential)
    (hc : c ∈ l) (hid : c.id = pid) (huid : c.userId = uid) :
    (l.filter (fun x => ¬ (x.id = pid ∧ x.userId = uid))).length + 1 =
      l.length ∧
    ((l.filter (fun x => ¬ (x.id = pid ∧ x.userId = uid))).filter
        (fun x => x.userId = uid)).length + 1 =
      (l.filter (fun x => x.userId = uid)).length := by
  induction l with
  | nil => cases hc
  | cons a t ih =>
    have hnd : (∀ x ∈ t, ¬ x.id = a.id) ∧
        (t.map PasskeyCredential.id).Nodup := by
      simpa using hnodup
    rcases List.mem_cons.mp hc with rfl | hct
    · have hkeep : t.filter (fun x => ¬ (x.id = pid ∧ x.userId = uid)) = t := by
        apply List.filter_eq_self.mpr
        intro x hx
        have hxid : ¬ x.id = pid := fun hEq => hnd.1 x hx (hEq.trans hid.symm)
        simp [hxid]
      rw [List.filter_cons_of_neg (by simp [hid, huid]), hkeep,
        List.filter_cons_of_pos (by simp [huid])]
      simp
    · have haid : ¬ a.id = pid := fun hEq => hnd.1 c hct (hid.trans hEq.symm)
      obtain ⟨iht1, iht2⟩ := ih hnd.2 hct
      rw [List.filter_cons_of_pos (by simp [haid])]
      by_cases hau : a.userId = uid
      · rw [@List.filter_cons_of_pos _ (fun x => decide (x.userId = uid)) a _
            (by simp [hau]),
          @List.filter_cons_of_pos _ (fun x => decide (x.userId = uid)) a _
            (by simp [hau])]
        simp at iht1 iht2 ⊢
        omega
      · rw [@List.filter_cons_of_neg _ (fun x => decide (x.userId = uid)) a _
            (by simp [hau]),
          @List.filter_cons_of_neg _ (fun x => decide (x.userId = uid)) a _
            (by simp [hau])]
        simp at iht1 iht2 ⊢
        omega

/-- C2: a user's sole credential cannot be deleted (the handler answers
`LastCredentialError` and leaves the state unchanged); a user with at
least two credentials can delete any credential of their own, the count
drops by exactly one, and at least one credential always remains. The
`Nodup` hypothesis is the primary-key constraint on
`passkey_credentials.id`. -/
theorem C2_theorem (s : ServerState) (uid pid : Nat)
    (hnodup : (s.db.credentials.map PasskeyCredential.id).Nodup) :
    (credCount s.db uid = 1 →
      deletePasskey s uid pid =
        (s, .error (400, "Cannot delete your only passkey"))) ∧
    (2 ≤ credCount s.db uid →
      ∀ c ∈ s.db.credentials, c.id = pid → c.userId = uid →
      ∃ s', deletePasskey s uid pid = (s', .ok ()) ∧
        credCount s'.db uid + 1 = credCount s.db uid ∧
        1 ≤ credCount s'.db uid ∧
        s'.db.users = s.db.users) := by
  constructor
  · intro h1
    rw [deletePasskey, if_pos (by omega)]
  · intro h2 c hc hid huid
    obtain ⟨hrem1, hrem2⟩ :=
      remove_own_credential s.db.credentials pid uid hnodup c hc hid huid
    refine ⟨{ s with db := { s.db with
                credentials := s.db.credentials.filter
                  (fun x => ¬ (x.id = pid ∧ x.userId = uid)) } },
      ?_, ?_, ?_, ?_⟩
    · have hlen : ¬ ((s.db.credentials.filter
          (fun x => ¬ (x.id = pid ∧ x.userId = uid))).length =
            s.db.credentials.length) := by
        omega
      simp only [deletePasskey]
      rw [if_neg (by omega), if_neg hlen]
    · simp only [credCount] at hrem1 hrem2 ⊢
      omega
    · simp only [credCount] at h2 hrem1 hrem2 ⊢
      omega
    · rfl

/-- Witness for C2 at a concrete two-user state: the single-credential
user is refused, the two-credential user's deletion succeeds. -/
theorem C2_witness :
    deletePasskey ⟨⟨[⟨1, "a", true⟩], [⟨10, 1, "c1", "pk", 0, none, []⟩],
        [], [], []⟩, []⟩ 1 10 =
      (⟨⟨[⟨1, "a", true⟩], [⟨10, 1, "c1", "pk", 0, none, []⟩], [], [], []⟩, []⟩,
       .error (400, "Cannot delete your only passkey")) ∧
    (deletePasskey ⟨⟨[⟨1, "a", true⟩],
        [⟨10, 1, "c1", "pk", 0, none, []⟩, ⟨11, 1, "c2", "pk", 0, none, []⟩],
        [], [], []⟩, []⟩ 1 10).2 = .ok () := by
  constructor
  · exact (C2_theorem _ 1 10 (by decide)).1 (by decide)
  · obtain ⟨s', h, -, -, -⟩ :=
      (C2_theorem ⟨⟨[⟨1, "a", true⟩],
          [⟨10, 1, "c1", "pk", 0, none, []⟩, ⟨11, 1, "c2", "pk", 0, none, []⟩],
          [], [], []⟩, []⟩ 1 10 (by decide)).2 (by decide)
        ⟨10, 1, "c1", "pk", 0, none, []⟩ (by decide) rfl rfl
    rw [h]

/-- C6: with a login challenge stored for the username, a verify attempt
for a non-existent username and a verify attempt for an existing
username whose submitted credential matches none of that user's stored
credentials produce the identical response — status 400, message
"Authentication failed" — and both leave the state unchanged. -/
theorem C6_theorem (ctx : Ctx) (s : ServerState) (uname : String)
    (c : AuthCred) (ch : String) (hu : uname ≠ "")
    (hch : mapGet s.challenges uname = some ch) :
    (findUserByName s.db uname = none →
      loginVerify ctx s uname c = (s, .error (400, "Authentication failed"))) ∧
    (∀ user, findUserByName s.db uname = some user →
      findCredential s.db user.id c.rawId = none →
      loginVerify ctx s uname c =
        (s, .error (400, "Authentication failed"))) := by
  constructor
  · intro hnone
    simp [loginVerify, hu, hch, hnone]
  · intro user huser hcred
    simp [loginVerify, hu, hch, huser, hcred]

/-- Witness for C6: unknown username "ghost" and known username "alice"
with a non-matching credential produce the same error response. -/
theorem C6_witness :
    loginVerify ctxW ⟨⟨[⟨1, "alice", true⟩], [], [], [], []⟩,
        [("ghost", "ch")]⟩ "ghost" ⟨"raw", "b"⟩ =
      (⟨⟨[⟨1, "alice", true⟩], [], [], [], []⟩, [("ghost", "ch")]⟩,
       .error (400, "Authentication failed")) ∧
    loginVerify ctxW ⟨⟨[⟨1, "alice", true⟩], [], [], [], []⟩,
        [("alice", "ch")]⟩ "alice" ⟨"raw", "b"⟩ =
      (⟨⟨[⟨1, "alice", true⟩], [], [], [], []⟩, [("alice", "ch")]⟩,
       .error (400, "Authentication failed")) := by
  constructor
  · exact (C6_theorem ctxW ⟨⟨[⟨1, "alice", true⟩], [], [], [], []⟩,
      [("ghost", "ch")]⟩ "ghost" ⟨"raw", "b"⟩ "ch" (by decide) rfl).1 rfl
  · exact (C6_theorem ctxW ⟨⟨[⟨1, "alice", true⟩], [], [], [], []⟩,
      [("alice", "ch")]⟩ "alice" ⟨"raw", "b"⟩ "ch" (by decide) rfl).2
      ⟨1, "alice", true⟩ rfl rfl

/-- C9 counterexample: with no relying-party environment configuration
at all and a one-character signing key, module load succeeds and
resolves to the placeholder defaults, contradicting the claim that the
process refuses to start without an explicitly configured relying-party
identity and origin and that a minimum-entropy check is enforced on the
key. -/
theorem C9_counterexample :
    startup ⟨none, none, none, some "x"⟩ =
      .ok ⟨"Books Tracker", "localhost", "http://localhost:5173", "x"⟩ := rfl

/-- C9 amended: startup fails only when `JWT_SECRET` is unset (or empty)
— a bare presence check with no entropy requirement — and when it
starts, an unset relying-party identity and origin silently fall back
to the defaults `localhost` and `http://localhost:5173`. -/
theorem C9_theorem (env : Env) (sec : String)
    (hsec : env.jwtSecretVar = some sec) (hne : sec ≠ "")
    (hrp : env.rpIdVar = none) (hor : env.rpOriginVar = none) :
    startup env = .ok ⟨envOrDefault env.rpNameVar "Books Tracker",
      "localhost", "http://localhost:5173", sec⟩ ∧
    (∀ env2 : Env, env2.jwtSecretVar = none →
      startup env2 = .error "JWT_SECRET environment variable is required") := by
  constructor
  · simp [startup, hsec, hne, hrp, hor, envOrDefault]
  · intro env2 h2
    simp [startup, h2]

/-- Witness for C9 amended: a process with only a (weak) secret set
starts with the default relying-party configuration. -/
theorem C9_witness :
    startup ⟨none, none, none, some "x"⟩ =
      .ok ⟨"Books Tracker", "localhost", "http://localhost:5173", "x"⟩ := by
  exact (C9_theorem ⟨none, none, none, some "x"⟩ "x" rfl (by decide)
    rfl rfl).1

/-- C10: the per-request middleware accepts any bearer token whose MAC
verifies and whose expiry has not passed — its type consults no store —
even when the token's user row no longer exists, while POST
/verify-token additionally looks the user up and answers 404 "User not
found" for the same token in the same state. -/
theorem C10_theorem (ctx : Ctx) (s : ServerState) (t : SignedToken)
    (hmac : t.mac = ctx.macF ctx.secret t.payload)
    (hexp : ctx.now < t.payload.exp)
    (hnouser : findUserById s.db t.payload.userId = none) :
    authenticate ctx (.bearer t) = .ok t.payload ∧
    verifyTokenEndpoint ctx s (some t) = .error (404, "User not found") := by
  constructor
  · simp [authenticate, jwtVerify, hmac, hexp]
  · simp [verifyTokenEndpoint, jwtVerify, hmac, hexp, hnouser]

/-- Witness for C10: a validly signed, unexpired token for the absent
user id 42 passes the middleware but is reported invalid by the
verify-token endpoint. -/
theorem C10_witness :
    authenticate ctxW (.bearer ⟨⟨42, "gone", 2000⟩,
        macW "s3cr3t" ⟨42, "gone", 2000⟩⟩) = .ok ⟨42, "gone", 2000⟩ ∧
    verifyTokenEndpoint ctxW ⟨⟨[⟨1, "alice", true⟩], [], [], [], []⟩, []⟩
        (some ⟨⟨42, "gone", 2000⟩, macW "s3cr3t" ⟨42, "gone", 2000⟩⟩) =
      .error (404, "User not found") := by
  exact C10_theorem ctxW ⟨⟨[⟨1, "alice", true⟩], [], [], [], []⟩, []⟩
    ⟨⟨42, "gone", 2000⟩, macW "s3cr3t" ⟨42, "gone", 2000⟩⟩ rfl (by decide) rfl

/-- C7: with no user rows yet, POST /register/verify succeeds without an
invitation token (the invitation precondition is skipped) and creates
the single user row flagged `isInitialUser = true`; with at least one
user present, a verify attempt without an invitation token fails with
403 "Registration requires an invitation". -/
theorem C7_theorem (ctx : Ctx) (s : ServerState) (uname : String)
    (cred : RegCred) (nuid ncid : Nat) (codes : List String)
    (cids : List Nat) (ch : String) (huname : uname ≠ "") :
    (s.db.users = [] →
      mapGet s.challenges uname = some ch →
      ∀ info, ctx.verifyReg cred.blob ch = some info →
      credentialIdTaken s.db info.credentialId = false →
      codes.length = cids.length →
      (codes.map ctx.bcryptHash).Nodup →
      (∀ cd ∈ codes, ∀ rc ∈ s.db.recoveryCodes, rc.code ≠ ctx.bcryptHash cd) →
      (registerVerify ctx s uname cred none nuid ncid codes cids).2 =
          .ok ⟨signJwt ctx nuid uname, nuid, uname, codes⟩ ∧
        (registerVerify ctx s uname cred none nuid ncid
            codes cids).1.db.users = [⟨nuid, uname, true⟩]) ∧
    (s.db.users ≠ [] →
      (registerVerify ctx s uname cred none nuid ncid codes cids).2 =
        .error (403, "Registration requires an invitation")) := by
  constructor
  · intro husers hch info hver hcf hlen hcodesnd hdisj
    have husertaken : usernameTaken s.db uname = false := by
      simp [usernameTaken, husers]
    have hins : insertCodesUnique s.db.recoveryCodes
        (mkCodeRows ctx nuid codes cids) =
        some (s.db.recoveryCodes ++ mkCodeRows ctx nuid codes cids) := by
      apply insertCodesUnique_eq_some
      · rw [mkCodeRows_map_code ctx nuid codes cids hlen]
        exact hcodesnd
      · intro r hr c hcex
        obtain ⟨cd, hcd, hrc⟩ := mkCodeRows_mem ctx nuid codes cids r hr
        rw [hrc]
        exact hdisj cd hcd c hcex
    constructor <;>
      simp [registerVerify, registerInvCheck, regChallengeKey, registerTx,
        huname, husers, hch, hver, hcf, husertaken, hins]
  · intro husers
    simp [registerVerify, registerInvCheck, huname, List.length_eq_zero,
      husers]

/-- Witness for C7: first-ever registration at an empty store succeeds
and flags the user initial; the same request against a one-user store
is refused for lack of an invitation. -/
theorem C7_witness :
    (registerVerify ctxW ⟨⟨[], [], [], [], []⟩, [("bob", "chB")]⟩ "bob"
        ⟨"ok:chB", []⟩ none 1 2 codesW idsW).1.db.users =
      [⟨1, "bob", true⟩] ∧
    (registerVerify ctxW ⟨⟨[⟨1, "bob", true⟩], [], [], [], []⟩,
        [("bob", "chB")]⟩ "bob" ⟨"ok:chB", []⟩ none 3 4 codesW idsW).2 =
      .error (403, "Registration requires an invitation") := by
  constructor
  · exact ((C7_theorem ctxW ⟨⟨[], [], [], [], []⟩, [("bob", "chB")]⟩ "bob"
      ⟨"ok:chB", []⟩ 1 2 codesW idsW "chB" (by decide)).1 rfl rfl
      ⟨"cred-chB", "pk", 5⟩ (by decide) rfl (by decide) (by decide)
      (by intro cd hcd rc hrc; simp at hrc)).2
  · exact (C7_theorem ctxW ⟨⟨[⟨1, "bob", true⟩], [], [], [], []⟩,
      [("bob", "chB")]⟩ "bob" ⟨"ok:chB", []⟩ 3 4 codesW idsW "chB"
      (by decide)).2 (by decide)

/-- C3: a registration verify presenting a valid, unused, unexpired
invitation token succeeds, marks exactly that token row used and links
it to the new user; afterwards the token validates as already used at
every later time (even before its expiry), and any second registration
verify presenting the same token fails with 403 "This invitation has
already been used". The `Nodup` hypothesis is the unique constraint on
`invitation_tokens.token`; `hfk` reflects the `created_by` foreign key,
which makes invitation rows impossible while `users` is empty. -/
theorem C3_theorem (ctx : Ctx) (s : ServerState) (uname tok : String)
    (cred : RegCred) (nuid ncid : Nat) (codes : List String)
    (cids : List Nat) (ch : String) (invRow : InvitationToken)
    (info : RegInfo)
    (huname : uname ≠ "")
    (hfk : s.db.users ≠ [])
    (htoknd : (s.db.invitations.map InvitationToken.token).Nodup)
    (hfind : findInvitation s.db tok = some invRow)
    (hunused : invRow.used = false)
    (hunexp : ¬ invRow.expiresAt < ctx.now)
    (hfree : usernameTaken s.db uname = false)
    (hch : mapGet s.challenges (uname ++ ":" ++ tok) = some ch)
    (hver : ctx.verifyReg cred.blob ch = some info)
    (hcf : credentialIdTaken s.db info.credentialId = false)
    (hlen : codes.length = cids.length)
    (hcodesnd : (codes.map ctx.bcryptHash).Nodup)
    (hdisj : ∀ cd ∈ codes, ∀ rc ∈ s.db.recoveryCodes,
      rc.code ≠ ctx.bcryptHash cd) :
    (registerVerify ctx s uname cred (some tok) nuid ncid codes cids).2 =
      .ok ⟨signJwt ctx nuid uname, nuid, uname, codes⟩ ∧
    (∀ t ∈ (registerVerify ctx s uname cred (some tok) nuid ncid
        codes cids).1.db.invitations,
      t.token = tok → t.used = true ∧ t.usedBy = some nuid) ∧
    (∀ now2, validateInvitationToken (registerVerify ctx s uname cred
        (some tok) nuid ncid codes cids).1.db now2 tok =
      .invalid "This invitation has already been used") ∧
    (∀ (ctx2 : Ctx) (uname2 : String) (cred2 : RegCred) (a b : Nat)
        (cs : List String) (ci : List Nat), uname2 ≠ "" →
      (registerVerify ctx2 (registerVerify ctx s uname cred (some tok)
          nuid ncid codes cids).1 uname2 cred2 (some tok) a b cs ci).2 =
        .error (403, "This invitation has already been used")) := by
  have hval : validateInvitationToken s.db ctx.now tok = .valid invRow.id := by
    simp [validateInvitationToken, hfind, hunused, hunexp]
  have hinv : registerInvCheck s.db ctx.now (some tok) = .ok (some invRow.id) := by
    simp [registerInvCheck, List.length_eq_zero, hfk, hval]
  have hins : insertCodesUnique s.db.recoveryCodes
      (mkCodeRows ctx nuid codes cids) =
      some (s.db.recoveryCodes ++ mkCodeRows ctx nuid codes cids) := by
    apply insertCodesUnique_eq_some
    · rw [mkCodeRows_map_code ctx nuid codes cids hlen]
      exact hcodesnd
    · intro r hr c hcex
      obtain ⟨cd, hcd, hrc⟩ := mkCodeRows_mem ctx nuid codes cids r hr
      rw [hrc]
      exact hdisj cd hcd c hcex
  have hok : (registerVerify ctx s uname cred (some tok) nuid ncid
      codes cids).2 = .ok ⟨signJwt ctx nuid uname, nuid, uname, codes⟩ := by
    simp [registerVerify, regChallengeKey, registerTx, huname, hinv, hch,
      hver, hfree, hcf, hins]
  have hinvs : (registerVerify ctx s uname cred (some tok) nuid ncid
      codes cids).1.db.invitations =
      markInvitationUsed s.db.invitations (some invRow.id) nuid := by
    simp [registerVerify, regChallengeKey, registerTx, huname, hinv, hch,
      hver, hfree, hcf, hins]
  have husers2 : (registerVerify ctx s uname cred (some tok) nuid ncid
      codes cids).1.db.users = s.db.users ++
        [⟨nuid, uname, s.db.users.length = 0⟩] := by
    simp [registerVerify, regChallengeKey, registerTx, huname, hinv, hch,
      hver, hfree, hcf, hins]
  have hfind' : s.db.invitations.find? (fun t => t.token = tok) =
      some invRow := hfind
  have hmark := find_markInvitationUsed s.db.invitations tok nuid invRow hfind'
  have hval2 : ∀ now2, validateInvitationToken (registerVerify ctx s uname
      cred (some tok) nuid ncid codes cids).1.db now2 tok =
      .invalid "This invitation has already been used" := by
    intro now2
    simp [validateInvitationToken, findInvitation, hinvs, hmark]
  refine ⟨hok, ?_, hval2, ?_⟩
  · intro t ht htok
    rw [hinvs] at ht
    simp only [markInvitationUsed, List.mem_map] at ht
    obtain ⟨t0, ht0, rfl⟩ := ht
    have hrowmem := List.mem_of_find?_eq_some hfind'
    have hrowtok : invRow.token = tok := by
      have := List.find?_some hfind'
      simpa using this
    by_cases hid : t0.id = invRow.id
    · simp [hid]
    · exfalso
      have htok0 : t0.token = tok := by simpa [hid] using htok
      have ht0r : t0 = invRow :=
        List.inj_on_of_nodup_map htoknd ht0 hrowmem (htok0.trans hrowtok.symm)
      exact hid (by rw [ht0r])
  · intro ctx2 uname2 cred2 a b cs ci hu2
    have hne2 : (registerVerify ctx s uname cred (some tok) nuid ncid
        codes cids).1.db.users ≠ [] := by
      rw [husers2]
      simp
    generalize hgen : (registerVerify ctx s uname cred (some tok) nuid ncid
      codes cids).1 = s1 at hval2 hne2
    simp [registerVerify, registerInvCheck, hu2, List.length_eq_zero, hne2,
      hval2]

/-- Witness for C3: at a one-user store holding one valid invitation, a
registration using that invitation succeeds, and repeating the verify
with the same token is refused as already used. -/
theorem C3_witness :
    (registerVerify ctxW ⟨⟨[⟨1, "ann", true⟩], [],  [],
        [⟨5, 1, "tok", 9999, false, none⟩], []⟩,
        [("bob:tok", "chB")]⟩ "bob" ⟨"ok:chB", []⟩ (some "tok") 2 3
        codesW idsW).2 =
      .ok ⟨signJwt ctxW 2 "bob", 2, "bob", codesW⟩ ∧
    (registerVerify ctxW (registerVerify ctxW ⟨⟨[⟨1, "ann", true⟩], [], [],
        [⟨5, 1, "tok", 9999, false, none⟩], []⟩,
        [("bob:tok", "chB")]⟩ "bob" ⟨"ok:chB", []⟩ (some "tok") 2 3
        codesW idsW).1 "carl" ⟨"ok:chC", []⟩ (some "tok") 6 7
        codesW idsW).2 =
      .error (403, "This invitation has already been used") := by
  have h := C3_theorem ctxW ⟨⟨[⟨1, "ann", true⟩], [], [],
      [⟨5, 1, "tok", 9999, false, none⟩], []⟩, [("bob:tok", "chB")]⟩
    "bob" "tok" ⟨"ok:chB", []⟩ 2 3 codesW idsW "chB"
    ⟨5, 1, "tok", 9999, false, none⟩ ⟨"cred-chB", "pk", 5⟩
    (by decide) (by decide) (by decide) rfl rfl (by decide) rfl rfl rfl rfl
    rfl (by decide) (by intro cd hcd rc hrc; simp at hrc)
  exact ⟨h.1, h.2.2.2 ctxW "carl" ⟨"ok:chC", []⟩ 6 7 codesW idsW (by decide)⟩

/-- C5 counterexample: at a store where "alice" already exists (with a
valid invitation, a stored challenge and a passing ceremony so that the
verify step reaches its commit), POST /register/verify answers the
generic 500 "Failed to verify registration" (the rolled-back unique
constraint), not the 400 "Username already exists" that the claim
asserts for the verify step. -/
theorem C5_counterexample :
    registerVerify ctxW ⟨⟨[⟨1, "alice", true⟩], [], [],
        [⟨5, 1, "tok", 9999, false, none⟩], []⟩, [("alice:tok", "ch")]⟩
      "alice" ⟨"ok:ch", []⟩ (some "tok") 2 3 codesW idsW =
      (⟨⟨[⟨1, "alice", true⟩], [], [], [⟨5, 1, "tok", 9999, false, none⟩],
        []⟩, [("alice:tok", "ch")]⟩,
       .error (500, "Failed to verify registration")) ∧
    (registerVerify ctxW ⟨⟨[⟨1, "alice", true⟩], [], [],
        [⟨5, 1, "tok", 9999, false, none⟩], []⟩, [("alice:tok", "ch")]⟩
      "alice" ⟨"ok:ch", []⟩ (some "tok") 2 3 codesW idsW).2 ≠
      .error (400, "Username already exists") := by
  exact ⟨rfl, by decide⟩

/-- C5 amended: a duplicate registration is refused with 400 "Username
already exists" at the options step; the verify step has no username
check of its own — when it reaches the commit with a taken username the
unique constraint aborts the transaction and the handler answers the
generic 500 "Failed to verify registration" (state unchanged), not
UsernameTaken. -/
theorem C5_theorem (ctx : Ctx) (s : ServerState) (uname tok : String)
    (cred : RegCred) (nuid ncid : Nat) (codes : List String)
    (cids : List Nat) (ch freshCh : String) (invId : Nat) (info : RegInfo)
    (huname : uname ≠ "")
    (htaken : usernameTaken s.db uname = true)
    (hval : validateInvitationToken s.db ctx.now tok = .valid invId)
    (hch : mapGet s.challenges (uname ++ ":" ++ tok) = some ch)
    (hver : ctx.verifyReg cred.blob ch = some info) :
    registerOptions ctx s uname (some tok) freshCh =
      (s, .error (400, "Username already exists")) ∧
    registerVerify ctx s uname cred (some tok) nuid ncid codes cids =
      (s, .error (500, "Failed to verify registration")) := by
  have hne : s.db.users ≠ [] := by
    intro hnil
    rw [usernameTaken, hnil] at htaken
    simp at htaken
  have hinv : registerInvCheck s.db ctx.now (some tok) =
      .ok (some invId) := by
    simp [registerInvCheck, List.length_eq_zero, hne, hval]
  constructor
  · simp [registerOptions, huname, hinv, htaken]
  · simp [registerVerify, regChallengeKey, registerTx, huname, hinv, hch,
      hver, htaken]

/-- Witness for C5 amended at the concrete one-user store: the options
step reports the username taken, the verify step reports the generic
internal failure. -/
theorem C5_witness :
    registerOptions ctxW ⟨⟨[⟨1, "alice", true⟩], [], [],
        [⟨5, 1, "tok", 9999, false, none⟩], []⟩, [("alice:tok", "ch")]⟩
      "alice" (some "tok") "fresh" =
      (⟨⟨[⟨1, "alice", true⟩], [], [], [⟨5, 1, "tok", 9999, false, none⟩],
        []⟩, [("alice:tok", "ch")]⟩,
       .error (400, "Username already exists")) ∧
    registerVerify ctxW ⟨⟨[⟨1, "alice", true⟩], [], [],
        [⟨5, 1, "tok", 9999, false, none⟩], []⟩, [("alice:tok", "ch")]⟩
      "alice" ⟨"ok:ch", []⟩ (some "tok") 7 8 codesW idsW =
      (⟨⟨[⟨1, "alice", true⟩], [], [], [⟨5, 1, "tok", 9999, false, none⟩],
        []⟩, [("alice:tok", "ch")]⟩,
       .error (500, "Failed to verify registration")) := by
  exact C5_theorem ctxW ⟨⟨[⟨1, "alice", true⟩], [], [],
      [⟨5, 1, "tok", 9999, false, none⟩], []⟩, [("alice:tok", "ch")]⟩
    "alice" "tok" ⟨"ok:ch", []⟩ 7 8 codesW idsW "ch" "fresh" 5
    ⟨"cred-ch", "pk", 5⟩ (by decide) rfl rfl rfl rfl

/-- C1 counterexample: a login verify that fails after retrieving the
challenge (unknown user "alice") leaves the challenge in the cache —
retrieval is not get-and-remove — and the repeated verify does not fail
with "No login in progress"; moreover after a successful first-user
registration verify for "bob", repeating the verify with the same
challenge key fails with the invitation-precondition 403, not with
"No registration in progress". -/
theorem C1_counterexample :
    (loginVerify ctxW ⟨⟨[], [], [], [], []⟩, [("alice", "ch")]⟩ "alice"
        ⟨"r", "b"⟩).1.challenges = [("alice", "ch")] ∧
    (loginVerify ctxW (loginVerify ctxW ⟨⟨[], [], [], [], []⟩,
        [("alice", "ch")]⟩ "alice" ⟨"r", "b"⟩).1 "alice" ⟨"r", "b"⟩).2 ≠
      .error (400, "No login in progress") ∧
    (registerVerify ctxW (registerVerify ctxW ⟨⟨[], [], [], [], []⟩,
        [("bob", "chB")]⟩ "bob" ⟨"ok:chB", []⟩ none 1 2 codesW idsW).1
      "bob" ⟨"ok:chB", []⟩ none 3 4 codesW idsW).2 =
      .error (403, "Registration requires an invitation") := by
  exact ⟨rfl, by decide, by decide⟩

/-- C1 amended: a challenge is consumable by at most one successful
verify. After a successful login verify the challenge under the
username is gone and every repeated login verify fails with 400 "No
login in progress"; after a successful registration verify the
challenge under its key is gone and every repeated registration verify
with the same username and invitation token fails (with the invitation
precondition running before the challenge lookup, or with "No
registration in progress" otherwise) — it can never succeed again.
Removal happens only on success: a failed verify leaves the challenge
in place. -/
theorem C1_theorem (ctx : Ctx) (s sL : ServerState) (u : String)
    (c : AuthCred) (out : LoginOk)
    (hL : loginVerify ctx s u c = (sL, .ok out)) :
    mapGet sL.challenges u = none ∧
    (∀ (ctx2 : Ctx) (c2 : AuthCred),
      (loginVerify ctx2 sL u c2).2 = .error (400, "No login in progress")) ∧
    (∀ (ctx2 : Ctx) (s2 s2' : ServerState) (uname : String) (rc : RegCred)
        (inv : Option String) (a b : Nat) (cs : List String)
        (ci : List Nat) (outR : RegisterOk),
      registerVerify ctx2 s2 uname rc inv a b cs ci = (s2', .ok outR) →
      mapGet s2'.challenges (regChallengeKey uname inv) = none ∧
      ∀ (ctx3 : Ctx) (rc2 : RegCred) (a2 b2 : Nat) (cs2 : List String)
          (ci2 : List Nat),
        (registerVerify ctx3 s2' uname rc2 inv a2 b2 cs2 ci2).2.isOk =
          false) := by
  have hu : u ≠ "" := by
    intro h
    rw [loginVerify, if_pos h] at hL
    simp at hL
  rw [loginVerify, if_neg hu] at hL
  cases hget : mapGet s.challenges u with
  | none =>
    rw [hget] at hL
    simp at hL
  | some ch =>
  rw [hget] at hL
  simp only [] at hL
  cases huser : findUserByName s.db u with
  | none =>
    rw [huser] at hL
    simp at hL
  | some user =>
  rw [huser] at hL
  simp only [] at hL
  cases hcred : findCredential s.db user.id c.rawId with
  | none =>
    rw [hcred] at hL
    simp at hL
  | some dbCred =>
  rw [hcred] at hL
  simp only [] at hL
  cases hva : ctx.verifyAuth c ch dbCred with
  | none =>
    rw [hva] at hL
    simp at hL
  | some nc =>
  rw [hva] at hL
  simp only [] at hL
  have hsL : sL.challenges = mapDelete s.challenges u := by
    have := congrArg Prod.fst hL
    simp only [] at this
    rw [← this]
  refine ⟨?_, ?_, ?_⟩
  · rw [hsL]
    exact mapGet_mapDelete_self s.challenges u
  · intro ctx2 c2
    rw [loginVerify, if_neg hu, hsL, mapGet_mapDelete_self]
  · intro ctx2 s2 s2' uname rc inv a b cs ci outR hR
    have hu2 : uname ≠ "" := by
      intro h
      rw [registerVerify, if_pos h] at hR
      simp at hR
    rw [registerVerify, if_neg hu2] at hR
    cases hic : registerInvCheck s2.db ctx2.now inv with
    | error e =>
      rw [hic] at hR
      simp at hR
    | ok invId =>
    rw [hic] at hR
    simp only [] at hR
    cases hch2 : mapGet s2.challenges (regChallengeKey uname inv) with
    | none =>
      rw [hch2] at hR
      simp at hR
    | some chR =>
    rw [hch2] at hR
    simp only [] at hR
    cases hvr : ctx2.verifyReg rc.blob chR with
    | none =>
      rw [hvr] at hR
      simp at hR
    | some infoR =>
    rw [hvr] at hR
    simp only [] at hR
    cases htx : registerTx ctx2 s2.db uname (s2.db.users.length = 0)
        rc.transports infoR invId a b cs ci with
    | none =>
      rw [htx] at hR
      simp at hR
    | some db2 =>
    rw [htx] at hR
    simp only [] at hR
    have hs2' : s2' = ⟨db2, mapDelete s2.challenges
        (regChallengeKey uname inv)⟩ := by
      have := congrArg Prod.fst hR
      simp only [] at this
      rw [← this]
    have husers2 := registerTx_users ctx2 s2.db uname _ rc.transports infoR
      invId a b cs ci db2 htx
    have hne2 : ¬ (s2'.db.users.length = 0) := by
      rw [hs2']
      simp only [List.length_eq_zero]
      rw [husers2]
      simp
    constructor
    · rw [hs2']
      exact mapGet_mapDelete_self s2.challenges (regChallengeKey uname inv)
    · intro ctx3 rc2 a2 b2 cs2 ci2
      rw [registerVerify, if_neg hu2]
      cases hic3 : registerInvCheck s2'.db ctx3.now inv with
      | error e => simp [hic3, Except.isOk, Except.toBool]
      | ok invId3 =>
        have hchal2 : mapGet s2'.challenges (regChallengeKey uname inv) =
            none := by
          rw [hs2']
          exact mapGet_mapDelete_self s2.challenges (regChallengeKey uname inv)
        simp [hic3, hchal2, Except.isOk, Except.toBool]

/-- Witness for C1 amended: a concrete successful passkey login for
"alice" consumes the challenge, and the repeated verify is answered
with "No login in progress". -/
theorem C1_witness :
    (loginVerify ctxW (loginVerify ctxW ⟨⟨[⟨1, "alice", true⟩],
        [⟨10, 1, "credA", "pk", 0, none, []⟩], [], [], []⟩,
        [("alice", "ch")]⟩ "alice" ⟨"credA", "ok:ch"⟩).1 "alice"
      ⟨"credA", "ok:ch"⟩).2 = .error (400, "No login in progress") := by
  have h := C1_theorem ctxW ⟨⟨[⟨1, "alice", true⟩],
      [⟨10, 1, "credA", "pk", 0, none, []⟩], [], [], []⟩, [("alice", "ch")]⟩
    (loginVerify ctxW ⟨⟨[⟨1, "alice", true⟩],
      [⟨10, 1, "credA", "pk", 0, none, []⟩], [], [], []⟩,
      [("alice", "ch")]⟩ "alice" ⟨"credA", "ok:ch"⟩).1 "alice"
    ⟨"credA", "ok:ch"⟩ ⟨signJwt ctxW 1 "alice", 1, "alice"⟩ (by decide)
  exact h.2.1 ctxW ⟨"credA", "ok:ch"⟩

/-- C4: a successful recovery-code login marks the matched row used.
Afterwards every row of that user matching the same code is used, a
repeated login with the same code fails with the generic 400 "Invalid
username or recovery code", and any other still-unused code of the same
user still succeeds. The `huniq` hypothesis says the presented code
matches only the matched row's hash (bcrypt collisions aside). -/
theorem C4_theorem (ctx : Ctx) (s : ServerState) (uname code : String)
    (user : User) (row : RecoveryCode)
    (huname : uname ≠ "") (hcode : code ≠ "")
    (huser : findUserByName s.db uname = some user)
    (hfindrow : findMatchingCode ctx s.db user.id (normalizeCode code) =
      some row)
    (huniq : ∀ r ∈ s.db.recoveryCodes, r.userId = user.id →
      ctx.bcryptCheck (normalizeCode code) r.code = true → r.id = row.id) :
    loginRecovery ctx s uname code =
      ({ s with db := markCodeUsed s.db row.id },
       .ok ⟨signJwt ctx user.id user.username, user.id, user.username⟩) ∧
    (∀ r ∈ (markCodeUsed s.db row.id).recoveryCodes,
      r.userId = user.id →
      ctx.bcryptCheck (normalizeCode code) r.code = true → r.used = true) ∧
    (loginRecovery ctx { s with db := markCodeUsed s.db row.id } uname
        code).2 = .error (400, "Invalid username or recovery code") ∧
    (∀ code2, code2 ≠ "" →
      ∀ r2 ∈ s.db.recoveryCodes, r2.userId = user.id → r2.used = false →
      r2.id ≠ row.id →
      ctx.bcryptCheck (normalizeCode code2) r2.code = true →
      (loginRecovery ctx { s with db := markCodeUsed s.db row.id } uname
        code2).2.isOk = true) := by
  have hmarked : ∀ r ∈ (markCodeUsed s.db row.id).recoveryCodes,
      r.userId = user.id →
      ctx.bcryptCheck (normalizeCode code) r.code = true → r.used = true := by
    intro r hr hru hchk
    simp only [markCodeUsed, List.mem_map] at hr
    obtain ⟨r0, hr0, rfl⟩ := hr
    by_cases hid : r0.id = row.id
    · simp [hid]
    · simp only [hid, if_false] at hru hchk ⊢
      exact absurd (huniq r0 hr0 hru hchk) hid
  have huser' : findUserByName (markCodeUsed s.db row.id) uname =
      some user := huser
  refine ⟨?_, hmarked, ?_, ?_⟩
  · simp [loginRecovery, huname, hcode, huser, hfindrow]
  · have hnone : findMatchingCode ctx (markCodeUsed s.db row.id) user.id
        (normalizeCode code) = none := by
      rw [findMatchingCode, List.find?_eq_none]
      intro r hr
      obtain ⟨hrmem, hcond⟩ := List.mem_filter.mp hr
      simp only [decide_eq_true_eq] at hcond
      intro hchk
      have := hmarked r hrmem hcond.1 (by simpa using hchk)
      rw [this] at hcond
      exact absurd hcond.2 (by simp)
    simp [loginRecovery, huname, hcode, huser', hnone]
  · intro code2 hcode2 r2 hr2 hr2u hr2unused hr2id hchk2
    have hr2' : r2 ∈ (markCodeUsed s.db row.id).recoveryCodes := by
      simp only [markCodeUsed, List.mem_map]
      exact ⟨r2, hr2, by simp [hr2id]⟩
    have hmem : r2 ∈ (markCodeUsed s.db row.id).recoveryCodes.filter
        (fun r => r.userId = user.id ∧ r.used = false) :=
      List.mem_filter.mpr ⟨hr2', by simp [hr2u, hr2unused]⟩
    have hsome : (findMatchingCode ctx (markCodeUsed s.db row.id) user.id
        (normalizeCode code2)).isSome := by
      rw [findMatchingCode]
      exact List.find?_isSome.mpr ⟨r2, hmem, hchk2⟩
    cases hfound : findMatchingCode ctx (markCodeUsed s.db row.id) user.id
        (normalizeCode code2) with
    | none => rw [hfound] at hsome; simp at hsome
    | some row2 =>
      simp [loginRecovery, huname, hcode2, huser', hfound, Except.isOk,
        Except.toBool]

/-- Witness for C4: generate ten codes, use code "A2"; reusing "A2"
fails while "A5" still succeeds. -/
theorem C4_witness :
    (loginRecovery ctxW (loginRecovery ctxW sRecW "alice" "A2").1 "alice"
        "A2").2 = .error (400, "Invalid username or recovery code") ∧
    (loginRecovery ctxW (loginRecovery ctxW sRecW "alice" "A2").1 "alice"
        "A5").2.isOk = true := by
  have h := C4_theorem ctxW sRecW "alice" "A2" ⟨1, "alice", true⟩
    ⟨33, 1, "h:A2", false⟩ (by decide) (by decide) rfl (by decide)
    (by decide)
  have h1 : (loginRecovery ctxW sRecW "alice" "A2").1 =
      { sRecW with db := markCodeUsed sRecW.db 33 } := by
    rw [h.1]
  constructor
  · rw [h1]
    exact h.2.2.1
  · rw [h1]
    exact h.2.2.2 "A5" (by decide) ⟨36, 1, "h:A5", false⟩ (by decide) rfl
      rfl (by decide) rfl

/-- C8: a setup-token registration verify with a valid, unused,
unexpired token inserts exactly one credential row owned by the token's
user and marks the token used, leaving users, recovery codes and
invitations untouched; a generated setup token expires 30 minutes after
issuance; and the token is single-use — a repeated register-verify with
the same token is refused as already used. -/
theorem C8_theorem (ctx : Ctx) (s : ServerState) (tok : String)
    (cred : RegCred) (dn : Option String) (ncid : Nat) (st : SetupToken)
    (u : User) (ch : String) (info : RegInfo)
    (htok : tok ≠ "")
    (hfind : findSetupTokenJoined s.db tok = some (st, u))
    (hunused : st.used = false)
    (hunexp : ¬ st.expiresAt < ctx.now)
    (hch : mapGet s.challenges ("setup-" ++ tok) = some ch)
    (hver : ctx.verifyReg cred.blob ch = some info)
    (hcf : credentialIdTaken s.db info.credentialId = false) :
    setupRegisterVerify ctx s tok cred dn ncid =
      (⟨{ s.db with
            credentials := s.db.credentials ++
              [⟨ncid, st.userId, info.credentialId, info.publicKey,
                info.counter, jsOrNull dn, []⟩]
            setupTokens := markSetupUsed s.db.setupTokens st.id },
        mapDelete s.challenges ("setup-" ++ tok)⟩,
       .ok ⟨signJwt ctx st.userId u.username, st.userId, u.username⟩) ∧
    (setupRegisterVerify ctx s tok cred dn ncid).1.db.users = s.db.users ∧
    (setupRegisterVerify ctx s tok cred dn ncid).1.db.recoveryCodes =
      s.db.recoveryCodes ∧
    (setupRegisterVerify ctx s tok cred dn ncid).1.db.invitations =
      s.db.invitations ∧
    (∀ (uid newId : Nat) (ft : String),
      (s.db.setupTokens.any (fun t => t.token = ft)) = false →
      setupTokenGenerate ctx s uid ft newId =
        ({ s with db := { s.db with setupTokens := s.db.setupTokens ++
            [⟨newId, uid, ft, ctx.now + thirtyMinutesMs, false⟩] } },
         .ok (ft, ctx.now + thirtyMinutesMs))) ∧
    (∀ (ctx3 : Ctx) (cred2 : RegCred) (dn2 : Option String) (nc2 : Nat),
      (setupRegisterVerify ctx3 (setupRegisterVerify ctx s tok cred dn
          ncid).1 tok cred2 dn2 nc2).2 =
        .error (400, "This setup token has already been used")) := by
  have hparts : s.db.setupTokens.find? (fun t => t.token = tok) = some st ∧
      findUserById s.db st.userId = some u := by
    unfold findSetupTokenJoined at hfind
    cases hst : s.db.setupTokens.find? (fun t => t.token = tok) with
    | none =>
      rw [hst] at hfind
      simp at hfind
    | some st0 =>
      rw [hst] at hfind
      simp only [Option.some_bind] at hfind
      cases hu0 : findUserById s.db st0.userId with
      | none =>
        rw [hu0] at hfind
        simp at hfind
      | some u0 =>
        rw [hu0] at hfind
        simp at hfind
        obtain ⟨rfl, rfl⟩ := hfind
        exact ⟨rfl, hu0⟩
  have hred : setupRegisterVerify ctx s tok cred dn ncid =
      (⟨{ s.db with
            credentials := s.db.credentials ++
              [⟨ncid, st.userId, info.credentialId, info.publicKey,
                info.counter, jsOrNull dn, []⟩]
            setupTokens := markSetupUsed s.db.setupTokens st.id },
        mapDelete s.challenges ("setup-" ++ tok)⟩,
       .ok ⟨signJwt ctx st.userId u.username, st.userId, u.username⟩) := by
    simp [setupRegisterVerify, htok, hfind, hunused, hunexp, hch, hver, hcf]
  have hmark := find_markSetupUsed s.db.setupTokens tok st hparts.1
  refine ⟨hred, by rw [hred], by rw [hred], by rw [hred], ?_, ?_⟩
  · intro uid newId ft hfresh
    simp [setupTokenGenerate, hfresh]
  · intro ctx3 cred2 dn2 nc2
    have h1 : (setupRegisterVerify ctx s tok cred dn ncid).1 =
        ⟨{ s.db with
            credentials := s.db.credentials ++
              [⟨ncid, st.userId, info.credentialId, info.publicKey,
                info.counter, jsOrNull dn, []⟩]
            setupTokens := markSetupUsed s.db.setupTokens st.id },
          mapDelete s.challenges ("setup-" ++ tok)⟩ := by
      rw [hred]
    rw [h1]
    have hp2 : s.db.users.find? (fun x => x.id = st.userId) = some u :=
      hparts.2
    have hjoin : findSetupTokenJoined
        { s.db with
            credentials := s.db.credentials ++
              [⟨ncid, st.userId, info.credentialId, info.publicKey,
                info.counter, jsOrNull dn, []⟩]
            setupTokens := markSetupUsed s.db.setupTokens st.id } tok =
        some ({ st with used := true }, u) := by
      simp [findSetupTokenJoined, findUserById, hmark, hp2]
    simp [setupRegisterVerify, htok, hjoin]

/-- Witness for C8: a valid setup token for user "dave" adds one
credential for him without touching users or recovery codes, and the
repeated verify is refused as already used. -/
theorem C8_witness :
    (setupRegisterVerify ctxW ⟨⟨[⟨1, "dave", true⟩], [], [],
        [], [⟨9, 1, "stok", 5000, false⟩]⟩, [("setup-stok", "chS")]⟩
      "stok" ⟨"ok:chS", []⟩ none 12).1.db.users = [⟨1, "dave", true⟩] ∧
    (setupRegisterVerify ctxW (setupRegisterVerify ctxW
        ⟨⟨[⟨1, "dave", true⟩], [], [], [], [⟨9, 1, "stok", 5000, false⟩]⟩,
        [("setup-stok", "chS")]⟩ "stok" ⟨"ok:chS", []⟩ none 12).1
      "stok" ⟨"ok:chS", []⟩ none 13).2 =
      .error (400, "This setup token has already been used") := by
  have h := C8_theorem ctxW ⟨⟨[⟨1, "dave", true⟩], [], [], [],
      [⟨9, 1, "stok", 5000, false⟩]⟩, [("setup-stok", "chS")]⟩ "stok"
    ⟨"ok:chS", []⟩ none 12 ⟨9, 1, "stok", 5000, false⟩ ⟨1, "dave", true⟩
    "chS" ⟨"cred-chS", "pk", 5⟩ (by decide) rfl rfl (by decide) rfl rfl rfl
  exact ⟨h.2.1, h.2.2.2.2.2 ctxW ⟨"ok:chS", []⟩ none 13⟩

end Books
